import Mathlib

/-!
Verification of the provider-stackrox reconciliation core: a shallow
embedding of the Cluster and InitBundle external clients
(pkg/controller/cluster/cluster.go and the initbundle controller), their
mapper functions (generateCluster, generateObservation, isUpToDate) and
the connector Disconnect path, together with theorems settling the
specification claims about them.

Remote calls are modelled by passing the remote service's response for
each call as an explicit argument (an `Except`/`Option` value); the
stateful mutation of the managed custom resource is modelled by explicit
state passing on a record of the fields the code reads and writes.
-/

/-! ## github.com/pkg/errors semantics

`errors.Wrap(err, msg)` returns nil when `err` is nil and otherwise an
error whose message is `msg + ": " + err.Error()`. Errors are modelled
by their message strings; a nil error is `none`. -/

/-- Message-level model of `errors.Wrap` on a non-nil error: the new
message is the annotation, a colon-space separator, then the cause. -/
def wrapMsg (msg : String) (cause : String) : String :=
  msg ++ ": " ++ cause

/-- Model of `errors.Wrap(err, msg)`: nil stays nil, a non-nil error is
annotated with `msg`. -/
def goWrap (err : Option String) (msg : String) : Option String :=
  match err with
  | none => none
  | some e => some (wrapMsg msg e)

/-! ## Generated enum tables of the storage package

`storage.CollectionMethod_value`, `storage.CollectionMethod_name`,
`storage.ClusterType_value`, `storage.ClusterType_name` and
`storage.ManagerType_name` are the protobuf-generated name/code maps the
mapper indexes. Go map indexing with a missing key yields the zero
value: `0` for the value maps, `""` for the name maps. -/

def CollectionMethod_value : String → Int
  | "UNSET_COLLECTION" => 0
  | "NO_COLLECTION" => 1
  | "KERNEL_MODULE" => 2
  | "EBPF" => 3
  | _ => 0

def CollectionMethod_name : Int → String
  | 0 => "UNSET_COLLECTION"
  | 1 => "NO_COLLECTION"
  | 2 => "KERNEL_MODULE"
  | 3 => "EBPF"
  | _ => ""

def ClusterType_value : String → Int
  | "GENERIC_CLUSTER" => 0
  | "KUBERNETES_CLUSTER" => 1
  | "OPENSHIFT_CLUSTER" => 2
  | "OPENSHIFT4_CLUSTER" => 3
  | _ => 0

def ClusterType_name : Int → String
  | 0 => "GENERIC_CLUSTER"
  | 1 => "KUBERNETES_CLUSTER"
  | 2 => "OPENSHIFT_CLUSTER"
  | 3 => "OPENSHIFT4_CLUSTER"
  | _ => ""

def ManagerType_name : Int → String
  | 0 => "MANAGER_TYPE_UNKNOWN"
  | 1 => "MANAGER_TYPE_MANUAL"
  | 2 => "MANAGER_TYPE_HELM_CHART"
  | 3 => "MANAGER_TYPE_KUBERNETES_OPERATOR"
  | _ => ""

/-- The CollectionMethod variant names declared on the Cluster CRD
(kubebuilder validation enum in apis/cluster/v1alpha1). -/
def collectionMethodVariants : List String :=
  ["UNSET_COLLECTION", "NO_COLLECTION", "KERNEL_MODULE", "EBPF"]

/-- The Type variant names declared on the Cluster CRD. -/
def clusterTypeVariants : List String :=
  ["GENERIC_CLUSTER", "KUBERNETES_CLUSTER", "OPENSHIFT_CLUSTER", "OPENSHIFT4_CLUSTER"]

/-! ## storage.Cluster model

Only the fields the provider reads or writes are modelled. `Labels` is a
Go map, nil (`none`) distinct from empty (`some []`); `TolerationsConfig`
and `MostRecentSensorId` are nullable message pointers whose protobuf
getters return zero values on nil. -/

structure SensorDeploymentId where
  appNamespace : String
  appNamespaceId : String
  appServiceaccountId : String
  defaultNamespaceId : String
  k8sNodeName : String
  systemNamespaceId : String
deriving DecidableEq, Repr

def SensorDeploymentId.zero : SensorDeploymentId :=
  ⟨"", "", "", "", "", ""⟩

structure TolerationsConfig where
  disabled : Bool
deriving DecidableEq, Repr

structure StorageCluster where
  admissionController : Bool
  admissionControllerEvents : Bool
  admissionControllerUpdates : Bool
  centralApiEndpoint : String
  collectionMethod : Int
  collectorImage : String
  id : String
  labels : Option (List (String × String))
  mainImage : String
  managedBy : Int
  mostRecentSensorId : Option SensorDeploymentId
  name : String
  slimCollector : Bool
  tolerationsConfig : Option TolerationsConfig
  clusterType : Int
deriving DecidableEq, Repr

/-- The Go zero value `&storage.Cluster{}` used when `generateCluster`
receives a nil base. -/
def StorageCluster.zero : StorageCluster where
  admissionController := false
  admissionControllerEvents := false
  admissionControllerUpdates := false
  centralApiEndpoint := ""
  collectionMethod := 0
  collectorImage := ""
  id := ""
  labels := none
  mainImage := ""
  managedBy := 0
  mostRecentSensorId := none
  name := ""
  slimCollector := false
  tolerationsConfig := none
  clusterType := 0

/-- Protobuf getter `GetTolerationsConfig().GetDisabled()`: false on a
nil config pointer. -/
def StorageCluster.getTolerationsDisabled (c : StorageCluster) : Bool :=
  match c.tolerationsConfig with
  | none => false
  | some t => t.disabled

/-- Protobuf getter `GetMostRecentSensorId()`: zero message on nil. -/
def StorageCluster.getMostRecentSensorId (c : StorageCluster) : SensorDeploymentId :=
  c.mostRecentSensorId.getD SensorDeploymentId.zero

/-! ## Cluster CRD types (apis/cluster/v1alpha1) -/

structure ClusterParameters where
  admissionController : Bool
  admissionControllerEvents : Bool
  admissionControllerUpdates : Bool
  centralAPIEndpoint : String
  collectionMethod : String
  collectorImage : String
  labels : Option (List (String × String))
  mainImage : String
  name : String
  slimCollector : Bool
  tolerations : Bool
  clusterType : String
deriving DecidableEq, Repr

structure SensorDeployment where
  appNamespace : String
  appNamespaceID : String
  appServiceAccountID : String
  defaultNamespaceID : String
  k8sNodeName : String
  systemNamespaceID : String
deriving DecidableEq, Repr

structure ClusterObservation where
  admissionController : Bool
  admissionControllerEvents : Bool
  admissionControllerUpdates : Bool
  centralAPIEndpoint : String
  collectionMethod : String
  collectorImage : String
  id : String
  labels : Option (List (String × String))
  mainImage : String
  managedBy : String
  mostRecentSensor : SensorDeployment
  name : String
  slimCollector : Bool
  tolerations : Bool
  clusterType : String
deriving DecidableEq, Repr

def ClusterObservation.zero : ClusterObservation where
  admissionController := false
  admissionControllerEvents := false
  admissionControllerUpdates := false
  centralAPIEndpoint := ""
  collectionMethod := ""
  collectorImage := ""
  id := ""
  labels := none
  mainImage := ""
  managedBy := ""
  mostRecentSensor := ⟨"", "", "", "", "", ""⟩
  name := ""
  slimCollector := false
  tolerations := false
  clusterType := ""

namespace Cluster

def errNotCluster : String := "managed resource is not a Cluster custom resource"
def errGetFailed : String := "cannot get cluster"
def errObserveFailed : String := "cannot observe cluster"
def errCreateFailed : String := "cannot create cluster"
def errUpdateFailed : String := "cannot update cluster"
def errDeleteFailed : String := "cannot delete cluster"

/-- `generateObservation` of cluster.go: projects a fetched
storage.Cluster into the CRD observation, decoding enum codes through
the generated name maps and negating the tolerations disabled flag. -/
def generateObservation («in» : StorageCluster) : ClusterObservation :=
  let s := «in».getMostRecentSensorId
  let mostRecentSensor : SensorDeployment :=
    { appNamespace := s.appNamespace
      appNamespaceID := s.appNamespaceId
      appServiceAccountID := s.appServiceaccountId
      defaultNamespaceID := s.defaultNamespaceId
      k8sNodeName := s.k8sNodeName
      systemNamespaceID := s.systemNamespaceId }
  { admissionController := «in».admissionController
    admissionControllerEvents := «in».admissionControllerEvents
    admissionControllerUpdates := «in».admissionControllerUpdates
    centralAPIEndpoint := «in».centralApiEndpoint
    collectionMethod := CollectionMethod_name «in».collectionMethod
    collectorImage := «in».collectorImage
    id := «in».id
    labels := «in».labels
    mainImage := «in».mainImage
    managedBy := ManagerType_name «in».managedBy
    mostRecentSensor := mostRecentSensor
    name := «in».name
    slimCollector := «in».slimCollector
    tolerations := !«in».getTolerationsDisabled
    clusterType := ClusterType_name «in».clusterType }

/-- `generateCluster` of cluster.go: maps the declared parameters onto a
base storage.Cluster (the Go zero value when the base is nil), leaving
every field not covered by the parameter set untouched. -/
def generateCluster («in» : ClusterParameters) (base : Option StorageCluster) :
    StorageCluster :=
  let b := base.getD StorageCluster.zero
  { b with
    admissionController := «in».admissionController
    admissionControllerEvents := «in».admissionControllerEvents
    admissionControllerUpdates := «in».admissionControllerUpdates
    centralApiEndpoint := «in».centralAPIEndpoint
    collectionMethod := CollectionMethod_value «in».collectionMethod
    collectorImage := «in».collectorImage
    labels := «in».labels
    mainImage := «in».mainImage
    name := «in».name
    slimCollector := «in».slimCollector
    tolerationsConfig := some ⟨!«in».tolerations⟩
    clusterType := ClusterType_value «in».clusterType }

/-- The observed-parameters projection built inside `isUpToDate` from
the fetched storage.Cluster. -/
def projectParams (observed : StorageCluster) : ClusterParameters where
  admissionController := observed.admissionController
  admissionControllerEvents := observed.admissionControllerEvents
  admissionControllerUpdates := observed.admissionControllerUpdates
  centralAPIEndpoint := observed.centralApiEndpoint
  collectionMethod := CollectionMethod_name observed.collectionMethod
  collectorImage := observed.collectorImage
  labels := observed.labels
  mainImage := observed.mainImage
  name := observed.name
  slimCollector := observed.slimCollector
  tolerations := !observed.getTolerationsDisabled
  clusterType := ClusterType_name observed.clusterType

/-- `cmpopts.EquateEmpty` on a Go map field: a nil map and an empty map
compare equal. -/
def labelsEqualEmpty (a b : Option (List (String × String))) : Bool :=
  a.getD [] == b.getD []

/-- Field-wise equality implementing `cmp.Diff(a, b, cmpopts.EquateEmpty)`
emptiness: the diff is empty exactly when this returns true. -/
def paramsEqual (a b : ClusterParameters) : Bool :=
  a.admissionController == b.admissionController &&
  a.admissionControllerEvents == b.admissionControllerEvents &&
  a.admissionControllerUpdates == b.admissionControllerUpdates &&
  a.centralAPIEndpoint == b.centralAPIEndpoint &&
  a.collectionMethod == b.collectionMethod &&
  a.collectorImage == b.collectorImage &&
  labelsEqualEmpty a.labels b.labels &&
  a.mainImage == b.mainImage &&
  a.name == b.name &&
  a.slimCollector == b.slimCollector &&
  a.tolerations == b.tolerations &&
  a.clusterType == b.clusterType

/-- `isUpToDate` of cluster.go: compares the declared parameters with
the projection of the fetched cluster; a non-empty diff is prefixed by a
fixed header (the textual body of go-cmp's diff is abstracted). -/
def isUpToDate (forProvider : ClusterParameters) (observed : StorageCluster) :
    Bool × String :=
  if paramsEqual forProvider (projectParams observed) then (true, "")
  else (false, "Observed difference in cluster\n")

end Cluster

/-! ## Lifecycle conditions and managed-resource state

The crossplane-runtime Ready condition values set or compared by the
code: `xpv1.Available()`, `xpv1.Creating()`, `xpv1.Deleting()`. A fresh
resource has no Ready condition yet (`unset`). -/

inductive Condition where
  | unset
  | available
  | creating
  | deleting
deriving DecidableEq, Repr

/-- The fields of the Cluster managed resource the external client reads
and writes per pass: the crossplane external-name annotation, the
declared parameters, the observation status and the Ready condition. -/
structure ClusterState where
  externalName : String
  forProvider : ClusterParameters
  atProvider : ClusterObservation
  readyCondition : Condition
deriving DecidableEq, Repr

/-- `managed.ExternalObservation` as filled in by Observe. -/
structure ExternalObservation where
  resourceExists : Bool
  resourceUpToDate : Bool
  diff : String
deriving DecidableEq, Repr

namespace Cluster

/-- `getCluster` of cluster.go: list the remote collection (its response
or transport error is the `listResp` argument) and search linearly for
an entry whose name equals the resource's external name; a miss is `ok
none`, a list failure is wrapped with errGetFailed. -/
def getCluster (listResp : Except String (List StorageCluster))
    (cr : ClusterState) : Except String (Option StorageCluster) :=
  match listResp with
  | .error e => .error (wrapMsg errGetFailed e)
  | .ok cs => .ok (cs.find? (fun it => it.name == cr.externalName))

/-- `Observe` of cluster.go: a fetch failure is wrapped with
errObserveFailed; a miss yields exists=false with the state untouched; a
hit projects the entry into the status, sets the Available condition and
reports the diff of isUpToDate. -/
def Observe (listResp : Except String (List StorageCluster))
    (cr : ClusterState) : Except String (ExternalObservation × ClusterState) :=
  match getCluster listResp cr with
  | .error e => .error (wrapMsg errObserveFailed e)
  | .ok none => .ok (⟨false, false, ""⟩, cr)
  | .ok (some cluster) =>
      let cr := { cr with atProvider := generateObservation cluster
                          readyCondition := .available }
      let r := isUpToDate cr.forProvider cluster
      .ok (⟨true, r.fst, r.snd⟩, cr)

/-- `Create` of cluster.go. The remote PostCluster outcome is the
`postResp` argument (`ok` carries the nullable cluster of the response).
Returns the pass result, the resulting resource state and the request
that was sent. -/
def Create (postResp : Except String (Option StorageCluster))
    (cr : ClusterState) :
    Except String Unit × ClusterState × StorageCluster :=
  let cr := { cr with readyCondition := .creating }
  let req := generateCluster cr.forProvider none
  match postResp with
  | .error e => (.error (wrapMsg errCreateFailed e), cr, req)
  | .ok none => (.ok (), cr, req)
  | .ok (some c) =>
      (.ok (), { cr with atProvider := generateObservation c
                         externalName := c.name }, req)

/-- `Update` of cluster.go. First re-fetches through getCluster
(`listResp`); a nil hit returns success immediately. Otherwise the
request is the parameters mapped onto the fetched cluster and the remote
PutCluster outcome is `putResp`. The third component is the replace
request, `none` when no replace call was issued. Note that the source
wraps a PutCluster failure with errCreateFailed, not errUpdateFailed. -/
def Update (listResp : Except String (List StorageCluster))
    (putResp : Except String (Option StorageCluster))
    (cr : ClusterState) :
    Except String Unit × ClusterState × Option StorageCluster :=
  match getCluster listResp cr with
  | .error e => (.error (wrapMsg errUpdateFailed e), cr, none)
  | .ok none => (.ok (), cr, none)
  | .ok (some cluster) =>
      let req := generateCluster cr.forProvider (some cluster)
      match putResp with
      | .error e => (.error (wrapMsg errCreateFailed e), cr, some req)
      | .ok none => (.ok (), cr, some req)
      | .ok (some c) =>
          (.ok (), { cr with atProvider := generateObservation c
                             externalName := c.name }, some req)

/-- A remote service error as seen through the gRPC status: the delete
endpoints may answer not-found or any other failure. -/
inductive RemoteErr where
  | notFound
  | other (msg : String)
deriving DecidableEq, Repr

/-- The message carried by a remote error. -/
def RemoteErr.message : RemoteErr → String
  | .notFound => "not found"
  | .other m => m

/-- `Delete` of cluster.go: sets the Deleting condition, issues
DeleteCluster with the status identifier and wraps whatever error comes
back with errDeleteFailed (nil stays nil); there is no special handling
of a not-found response. -/
def Delete (delResp : Option RemoteErr) (cr : ClusterState) :
    Option String × ClusterState :=
  let cr := { cr with readyCondition := .deleting }
  (goWrap (delResp.map RemoteErr.message) errDeleteFailed, cr)

end Cluster

/-! ## InitBundle CRD types and the v1.InitBundleMeta model

Timestamps are kept as (seconds, nanos) pairs of the protobuf
Timestamp; `metav1.NewTime(time.Unix(...))` is modelled as carrying the
same pair. The CreatedBy attribute map is modelled as the association
list the code folds the response attributes into. -/

structure InitBundleUser where
  attributes : List (String × String)
  authProviderID : String
  id : String
deriving DecidableEq, Repr

structure ImpactedCluster where
  id : String
  name : String
deriving DecidableEq, Repr

structure InitBundleMeta where
  id : String
  name : String
  createdAtSeconds : Int
  createdAtNanos : Int
  expiresAtSeconds : Int
  expiresAtNanos : Int
  createdByAttributes : List (String × String)
  createdByAuthProviderId : String
  createdById : String
  impactedClusters : List ImpactedCluster
deriving DecidableEq, Repr

structure InitBundleObservation where
  createdAt : Int × Int
  createdBy : InitBundleUser
  expiresAt : Int × Int
  id : String
  impactedClusters : List ImpactedCluster
  name : String
deriving DecidableEq, Repr

def InitBundleObservation.zero : InitBundleObservation where
  createdAt := (0, 0)
  createdBy := ⟨[], "", ""⟩
  expiresAt := (0, 0)
  id := ""
  impactedClusters := []
  name := ""

/-- The fields of the InitBundle managed resource the external client
reads and writes per pass; the declared parameter set is just a name. -/
structure BundleState where
  externalName : String
  forProviderName : String
  atProvider : InitBundleObservation
  readyCondition : Condition
deriving DecidableEq, Repr

/-- `v1.InitBundleGenResponse`: nullable meta plus the one-time secret
material, modelled as opaque byte strings. -/
structure InitBundleGenResponse where
  meta : Option InitBundleMeta
  helmValuesBundle : String
  kubectlBundle : String
deriving DecidableEq, Repr

namespace Bundle

def errNotInitBundle : String := "managed resource is not a InitBundle custom resource"
def errGetFailed : String := "cannot get init bundle"
def errObserveFailed : String := "cannot observe init bundle"
def errCreateFailed : String := "cannot create init bundle"
def errUpdateFailed : String := "cannot update init bundle"
def errDeleteFailed : String := "cannot delete init bundle"

/-- `generateObservation` of the initbundle controller. -/
def generateObservation («in» : InitBundleMeta) : InitBundleObservation where
  createdAt := («in».createdAtSeconds, «in».createdAtNanos)
  createdBy :=
    { attributes := «in».createdByAttributes
      authProviderID := «in».createdByAuthProviderId
      id := «in».createdById }
  expiresAt := («in».expiresAtSeconds, «in».expiresAtNanos)
  id := «in».id
  impactedClusters := «in».impactedClusters
  name := «in».name

/-- `isUpToDate` of the initbundle controller: the only declared
parameter is the name. -/
def isUpToDate (forProviderName : String) (observed : InitBundleMeta) :
    Bool × String :=
  if forProviderName == observed.name then (true, "")
  else (false, "Observed difference in init bundle\n")

/-- `getInitBundle`: lists the bundles and searches for the external
name; note the source wraps a list failure with errObserveFailed here
(so Observe double-wraps it). -/
def getInitBundle (listResp : Except String (List InitBundleMeta))
    (cr : BundleState) : Except String (Option InitBundleMeta) :=
  match listResp with
  | .error e => .error (wrapMsg errObserveFailed e)
  | .ok items => .ok (items.find? (fun it => it.name == cr.externalName))

/-- `Observe` of the initbundle controller. -/
def Observe (listResp : Except String (List InitBundleMeta))
    (cr : BundleState) : Except String (ExternalObservation × BundleState) :=
  match getInitBundle listResp cr with
  | .error e => .error (wrapMsg errObserveFailed e)
  | .ok none => .ok (⟨false, false, ""⟩, cr)
  | .ok (some bundle) =>
      let cr := { cr with atProvider := generateObservation bundle
                          readyCondition := .available }
      let r := isUpToDate cr.forProviderName bundle
      .ok (⟨true, r.fst, r.snd⟩, cr)

/-- `Create` of the initbundle controller: issues GenerateInitBundle
with the declared name; on success surfaces the secret material as
connection details and links the resource to the returned meta name. -/
def Create (genResp : Except String InitBundleGenResponse)
    (cr : BundleState) :
    Except String (List (String × String)) × BundleState :=
  let cr := { cr with readyCondition := .creating }
  match genResp with
  | .error e => (.error (wrapMsg errCreateFailed e), cr)
  | .ok resp =>
      let cr :=
        match resp.meta with
        | none => cr
        | some m => { cr with atProvider := generateObservation m
                              externalName := m.name }
      (.ok [("helmValuesBundle", resp.helmValuesBundle),
            ("kubectlBundle", resp.kubectlBundle)], cr)

/-- `Delete` of the initbundle controller: sets the Deleting condition
and issues RevokeInitBundle for the status identifier, wrapping any
error with errDeleteFailed. The second component is the resulting state,
the third the id list of the revoke request. -/
def Delete (revokeResp : Option Cluster.RemoteErr) (cr : BundleState) :
    Option String × BundleState × List String :=
  let cr := { cr with readyCondition := .deleting }
  (goWrap (revokeResp.map Cluster.RemoteErr.message) errDeleteFailed,
   cr, [cr.atProvider.id])

/-- `Update` of the initbundle controller: a no-op success while the
Ready condition equals Creating or Deleting; otherwise it degrades to
Delete, wrapping that result with errUpdateFailed. The third component
is the id list of the revoke request when one was issued. -/
def Update (revokeResp : Option Cluster.RemoteErr) (cr : BundleState) :
    Option String × BundleState × Option (List String) :=
  if cr.readyCondition == .creating || cr.readyCondition == .deleting then
    (none, cr, none)
  else
    let r := Delete revokeResp cr
    (goWrap r.fst errUpdateFailed, r.snd.fst, some r.snd.snd)

end Bundle

/-! ## Connector close and Disconnect

Both controllers hold an `external` struct with a nullable gRPC client;
`close` guards against a nil receiver and a nil client and otherwise
closes the connection, and `Disconnect` wraps the result once more with
the central client close message. A client is bound only after a
successful Connect. -/

def ErrCloseClient : String := "cannot close central client"

/-- A bound gRPC client connection, modelled by the outcome its Close
call would report. -/
structure GrpcConn where
  closeResult : Option String
deriving DecidableEq, Repr

/-- The `external` struct of either controller: a nullable client. -/
structure ExternalConn where
  client : Option GrpcConn
deriving DecidableEq, Repr

namespace Cluster

/-- The `close` method of cluster.go's external struct (nil receiver and
nil client both yield nil). -/
def close (c : Option ExternalConn) : Option String :=
  match c with
  | none => none
  | some ext =>
      match ext.client with
      | none => none
      | some conn => goWrap conn.closeResult ErrCloseClient

/-- `Disconnect` of cluster.go's connector: closes the external client
and wraps the outcome with the close message. -/
def Disconnect (external : Option ExternalConn) : Option String :=
  goWrap (close external) ErrCloseClient

end Cluster

namespace Bundle

/-- The `close` method of the initbundle controller's external struct. -/
def close (c : Option ExternalConn) : Option String :=
  match c with
  | none => none
  | some ext =>
      match ext.client with
      | none => none
      | some conn => goWrap conn.closeResult ErrCloseClient

/-- `Disconnect` of the initbundle connector. -/
def Disconnect (external : Option ExternalConn) : Option String :=
  goWrap (close external) ErrCloseClient

end Bundle

/-! ## Concrete fixtures used by witnesses and counterexamples -/

def sampleParams : ClusterParameters where
  admissionController := true
  admissionControllerEvents := false
  admissionControllerUpdates := false
  centralAPIEndpoint := "central.example.com:443"
  collectionMethod := "EBPF"
  collectorImage := "collector-image"
  labels := none
  mainImage := "main-image"
  name := "prod"
  slimCollector := true
  tolerations := true
  clusterType := "KUBERNETES_CLUSTER"

def sampleClusterState : ClusterState where
  externalName := "prod"
  forProvider := sampleParams
  atProvider := ClusterObservation.zero
  readyCondition := .unset

/-- A remote cluster matching the sample state's external name, with
remote-assigned fields the parameter set does not cover. -/
def sampleRemote : StorageCluster :=
  { Cluster.generateCluster sampleParams none with
    id := "remote-id-1"
    managedBy := 2
    mostRecentSensorId := some ⟨"ns", "nsid", "sa", "dns", "node", "sys"⟩ }

/-- A linear search over the remote cluster collection misses exactly
when no entry carries the external name. -/
theorem clusterFindNone (cs : List StorageCluster) (ext : String)
    (h : ∀ c ∈ cs, c.name ≠ ext) :
    cs.find? (fun it => it.name == ext) = none := by
  rw [List.find?_eq_none]
  intro c hc
  simpa using h c hc

/-- C1: for every pass in which the listed remote collection contains no
entry named like the DesiredState's external name (the empty collection
included), Observe returns exists=false with no error and the resource
state untouched; when such an entry is present Observe returns
exists=true. -/
theorem observe_exists_iff_name_match (cs : List StorageCluster)
    (cr : ClusterState) :
    ((∀ c ∈ cs, c.name ≠ cr.externalName) →
      Cluster.Observe (.ok cs) cr = .ok (⟨false, false, ""⟩, cr)) ∧
    ((∃ c ∈ cs, c.name = cr.externalName) →
      ∃ obs cr2, Cluster.Observe (.ok cs) cr = .ok (obs, cr2) ∧
        obs.resourceExists = true) := by
  constructor
  · intro h
    have hf := clusterFindNone cs cr.externalName h
    simp [Cluster.Observe, Cluster.getCluster, hf]
  · rintro ⟨c, hc, hname⟩
    have hs : (cs.find? (fun it => it.name == cr.externalName)).isSome := by
      rw [List.find?_isSome]
      exact ⟨c, hc, by simp [hname]⟩
    obtain ⟨c2, hc2⟩ := Option.isSome_iff_exists.mp hs
    exact ⟨⟨true, (Cluster.isUpToDate cr.forProvider c2).fst,
            (Cluster.isUpToDate cr.forProvider c2).snd⟩,
           { cr with atProvider := Cluster.generateObservation c2
                     readyCondition := .available },
           by simp [Cluster.Observe, Cluster.getCluster, hc2], rfl⟩

/-- Witness for C1 at the empty collection and at a singleton matching
collection. -/
theorem observe_exists_iff_name_match_witness :
    Cluster.Observe (.ok []) sampleClusterState =
      .ok (⟨false, false, ""⟩, sampleClusterState) ∧
    ∃ obs cr2, Cluster.Observe (.ok [sampleRemote]) sampleClusterState =
      .ok (obs, cr2) ∧ obs.resourceExists = true := by
  constructor
  · exact (observe_exists_iff_name_match [] sampleClusterState).1 (by simp)
  · exact (observe_exists_iff_name_match [sampleRemote] sampleClusterState).2
      ⟨sampleRemote, by simp, by decide⟩

/-- C2 counterexample: a not-found response from the remote delete call
is returned by Delete as a DeleteFailed error, not swallowed as
success. -/
theorem delete_notFound_returns_error :
    (Cluster.Delete (some Cluster.RemoteErr.notFound) sampleClusterState).fst =
      some "cannot delete cluster: not found" := by decide

/-- C2 amended: for both kinds, Delete returns no error exactly when the
remote delete call itself returned no error; every remote failure,
a not-found response included, is wrapped as DeleteFailed. -/
theorem delete_ok_iff_remote_ok (dc : Option Cluster.RemoteErr)
    (cr : ClusterState) (db : Option Cluster.RemoteErr) (br : BundleState) :
    ((Cluster.Delete dc cr).fst = none ↔ dc = none) ∧
    ((Bundle.Delete db br).fst = none ↔ db = none) := by
  constructor
  · cases dc <;> simp [Cluster.Delete, goWrap]
  · cases db <;> simp [Bundle.Delete, goWrap]

/-- C10: when the re-fetch at the start of the Cluster Update finds no
entry matching the external name, Update succeeds without issuing a
replace call and leaves the resource state (status and external name)
unchanged. -/
theorem update_refetch_absent_noop (cs : List StorageCluster)
    (putResp : Except String (Option StorageCluster)) (cr : ClusterState)
    (h : ∀ c ∈ cs, c.name ≠ cr.externalName) :
    Cluster.Update (.ok cs) putResp cr = (.ok (), cr, none) := by
  have hf := clusterFindNone cs cr.externalName h
  simp [Cluster.Update, Cluster.getCluster, hf]

/-- Witness for C10 at the empty collection. -/
theorem update_refetch_absent_noop_witness :
    Cluster.Update (.ok []) (.ok none) sampleClusterState =
      (.ok (), sampleClusterState, none) :=
  update_refetch_absent_noop [] (.ok none) sampleClusterState (by simp)

/-- C4: for every valid parameter set (enum fields drawn from the
declared variant names), mapping to a remote request with no base,
projecting the result back to observed parameters and diffing against
the original parameters (with empty and absent collections equated)
yields an empty diff. -/
theorem roundtrip_diff_empty (p : ClusterParameters)
    (hc : p.collectionMethod ∈ collectionMethodVariants)
    (ht : p.clusterType ∈ clusterTypeVariants) :
    Cluster.isUpToDate p (Cluster.generateCluster p none) = (true, "") := by
  have hcm : CollectionMethod_name (CollectionMethod_value p.collectionMethod) =
      p.collectionMethod := by
    simp only [collectionMethodVariants, List.mem_cons, List.not_mem_nil,
      or_false] at hc
    rcases hc with h | h | h | h <;> rw [h] <;> rfl
  have hct : ClusterType_name (ClusterType_value p.clusterType) =
      p.clusterType := by
    simp only [clusterTypeVariants, List.mem_cons, List.not_mem_nil,
      or_false] at ht
    rcases ht with h | h | h | h <;> rw [h] <;> rfl
  have hp : Cluster.paramsEqual p
      (Cluster.projectParams (Cluster.generateCluster p none)) = true := by
    simp [Cluster.paramsEqual, Cluster.projectParams, Cluster.generateCluster,
      Cluster.labelsEqualEmpty, StorageCluster.getTolerationsDisabled,
      hcm, hct, Bool.not_not]
  simp [Cluster.isUpToDate, hp]

/-- Witness for C4 at the sample parameter set. -/
theorem roundtrip_diff_empty_witness :
    sampleParams.collectionMethod ∈ collectionMethodVariants ∧
    sampleParams.clusterType ∈ clusterTypeVariants ∧
    Cluster.isUpToDate sampleParams (Cluster.generateCluster sampleParams none) =
      (true, "") :=
  ⟨by decide, by decide,
   roundtrip_diff_empty sampleParams (by decide) (by decide)⟩

/-- C5: evaluation at the failing input. When the Cluster Update's
replace call fails, the error is wrapped with errCreateFailed (the
message "cannot create cluster"), not with the errUpdateFailed message
the claim requires. -/
theorem update_put_error_wraps_create_message :
    (Cluster.Update (.ok [sampleRemote]) (.error "boom")
      sampleClusterState).fst = .error "cannot create cluster: boom" ∧
    (Cluster.Update (.ok [sampleRemote]) (.error "boom")
      sampleClusterState).fst ≠ .error "cannot update cluster: boom" := by
  have h1 : (Cluster.Update (.ok [sampleRemote]) (.error "boom")
      sampleClusterState).fst = .error "cannot create cluster: boom" := rfl
  refine ⟨h1, ?_⟩
  rw [h1]
  intro h
  injection h with h
  exact absurd h (by decide)

/-- C6: the replace request issued by the Cluster Update maps the
declared parameters onto the representation fetched by the re-fetch,
and every modelled field outside the parameter set (the remote-assigned
identifier, manager type, sensor metadata) is carried over unchanged. -/
theorem update_request_maps_onto_fetched (cs : List StorageCluster)
    (putResp : Except String (Option StorageCluster)) (cr : ClusterState)
    (b : StorageCluster)
    (hfind : cs.find? (fun it => it.name == cr.externalName) = some b) :
    (Cluster.Update (.ok cs) putResp cr).snd.snd =
      some (Cluster.generateCluster cr.forProvider (some b)) ∧
    (Cluster.generateCluster cr.forProvider (some b)).id = b.id ∧
    (Cluster.generateCluster cr.forProvider (some b)).managedBy = b.managedBy ∧
    (Cluster.generateCluster cr.forProvider (some b)).mostRecentSensorId =
      b.mostRecentSensorId ∧
    (Cluster.generateCluster cr.forProvider (some b)).collectorImage =
      cr.forProvider.collectorImage ∧
    (Cluster.generateCluster cr.forProvider (some b)).mainImage =
      cr.forProvider.mainImage := by
  refine ⟨?_, rfl, rfl, rfl, rfl, rfl⟩
  cases putResp with
  | error e => simp [Cluster.Update, Cluster.getCluster, hfind]
  | ok c =>
      cases c <;> simp [Cluster.Update, Cluster.getCluster, hfind]

/-- Witness for C6 at the sample fetched cluster. -/
theorem update_request_maps_onto_fetched_witness :
    (Cluster.Update (.ok [sampleRemote]) (.ok none)
      sampleClusterState).snd.snd =
      some (Cluster.generateCluster sampleParams (some sampleRemote)) ∧
    (Cluster.generateCluster sampleParams (some sampleRemote)).id =
      sampleRemote.id ∧
    (Cluster.generateCluster sampleParams (some sampleRemote)).managedBy =
      sampleRemote.managedBy := by
  have h := update_request_maps_onto_fetched [sampleRemote] (.ok none)
    sampleClusterState sampleRemote (by decide)
  exact ⟨h.1, h.2.1, h.2.2.1⟩

/-- C7: for both kinds, a failing remote create call makes Create return
the error wrapped with the CreateFailed message and leaves the external
name exactly as it was, so an unlinked resource stays unlinked. -/
theorem create_error_leaves_unlinked (e : String) (cr : ClusterState)
    (br : BundleState) :
    (Cluster.Create (.error e) cr).fst =
      .error (wrapMsg Cluster.errCreateFailed e) ∧
    (Cluster.Create (.error e) cr).snd.fst.externalName = cr.externalName ∧
    (Bundle.Create (.error e) br).fst =
      .error (wrapMsg Bundle.errCreateFailed e) ∧
    (Bundle.Create (.error e) br).snd.externalName = br.externalName := by
  refine ⟨rfl, rfl, rfl, rfl⟩

/-- C8: the mapped remote request stores the Tolerations toggle negated
in the tolerations-config disabled flag, the projection recovers
Tolerations as the negation of that flag for any remote representation,
and the toggle therefore round-trips. -/
theorem tolerations_negated_roundtrip (p : ClusterParameters)
    (c : StorageCluster) :
    (Cluster.generateCluster p none).tolerationsConfig =
      some ⟨!p.tolerations⟩ ∧
    (Cluster.generateObservation c).tolerations =
      !c.getTolerationsDisabled ∧
    (Cluster.generateObservation
      (Cluster.generateCluster p none)).tolerations = p.tolerations := by
  refine ⟨rfl, rfl, ?_⟩
  simp [Cluster.generateCluster, Cluster.generateObservation,
    StorageCluster.getTolerationsDisabled]

/-- The error grpc.ClientConn.Close reports when the connection has
already been closed (ErrClientConnClosing). -/
def errClientConnClosing : String := "grpc: the client connection is closing"

/-- A connection that was already closed: neither controller ever nils
out the client field after close, so a later Disconnect re-invokes Close
on this still-bound client and grpc reports ErrClientConnClosing. -/
def closedConn : GrpcConn := ⟨some errClientConnClosing⟩

/-- C9 counterexample: Disconnect on a connector whose connection was
already closed is not a nil-returning no-op. The client stays bound
after close, Close is re-invoked, and its ErrClientConnClosing result
comes back wrapped by close and wrapped again by Disconnect, for both
kinds. -/
theorem disconnect_already_closed_errors :
    Cluster.Disconnect (some ⟨some closedConn⟩) =
      some "cannot close central client: cannot close central client: grpc: the client connection is closing" ∧
    Bundle.Disconnect (some ⟨some closedConn⟩) =
      some "cannot close central client: cannot close central client: grpc: the client connection is closing" :=
  ⟨rfl, rfl⟩

/-- C9 amended: for both kinds, Disconnect on a connector whose external
client was never bound to a connection (Connect never succeeded, or the
client field is nil) returns a nil error; the already-closed case is not
covered, since the client stays bound after close and Close is
re-invoked. -/
theorem disconnect_noop_when_unbound (ext : Option ExternalConn)
    (h : ext = none ∨ ext = some ⟨none⟩) :
    Cluster.Disconnect ext = none ∧ Bundle.Disconnect ext = none := by
  rcases h with h | h <;> subst h <;>
    simp [Cluster.Disconnect, Bundle.Disconnect, Cluster.close, Bundle.close,
      goWrap]

/-- Witness for C9 at a connector that never connected. -/
theorem disconnect_noop_when_unbound_witness :
    Cluster.Disconnect none = none ∧ Bundle.Disconnect none = none :=
  disconnect_noop_when_unbound none (Or.inl rfl)
